import Mathlib

/-!
Verification of the request dispatch / retry / error-classification pipeline
of `vendor/src/github.com/docker/engine-api/client/request.go`.

The Go file is shallowly embedded: pure computations are Lean functions, and
every interaction with the outside world (the `DOCKER_HTTP_RETRY` and
`DOCKER_USER_AGENT` environment variables, `http.NewRequest` construction,
`httpClient.Do`, `ioutil.ReadAll`, the `http.Get` calls inside `tryProxy`,
and the regexp submatch on the proxy diagnostic body) is passed in as an
explicit oracle value describing what the world returned.  A Go runtime
panic (a nil-pointer dereference) is modelled by a dedicated `panicked`
constructor of the result type.
-/

/-! ## Go standard-library helpers used by the source file -/

/-- White-space test of Go's `unicode.IsSpace`, as used by `bytes.TrimSpace`:
tab, newline, vertical tab, form feed, carriage return, space, NEL, NBSP,
plus the Unicode `White_Space` code points. -/
def isGoSpace (c : Char) : Bool :=
  [9, 10, 11, 12, 13, 32, 0x85, 0xA0, 0x1680, 0x2028, 0x2029,
    0x202F, 0x205F, 0x3000].contains c.toNat
  || (0x2000 ≤ c.toNat && c.toNat ≤ 0x200A)

/-- Model of Go's `bytes.TrimSpace` (the result is printed with `%s`, so we
return the trimmed string directly): drop white space from both ends. -/
def goTrimSpace (s : String) : String :=
  (((s.data.dropWhile isGoSpace).reverse.dropWhile isGoSpace).reverse).asString

/-- Model of Go's `strings.Contains s sub`: `sub` occurs as a contiguous
substring of `s`. -/
def goContains (s sub : String) : Bool :=
  decide (sub.data <:+: s.data)

/-- Model of Go's `http.StatusText` (the subset of the table relevant here;
Go returns the empty string for an unknown code, and so do we). -/
def statusText (code : Int) : String :=
  if code = 200 then "OK"
  else if code = 201 then "Created"
  else if code = 204 then "No Content"
  else if code = 301 then "Moved Permanently"
  else if code = 302 then "Found"
  else if code = 304 then "Not Modified"
  else if code = 400 then "Bad Request"
  else if code = 401 then "Unauthorized"
  else if code = 403 then "Forbidden"
  else if code = 404 then "Not Found"
  else if code = 407 then "Proxy Authentication Required"
  else if code = 409 then "Conflict"
  else if code = 500 then "Internal Server Error"
  else if code = 501 then "Not Implemented"
  else if code = 502 then "Bad Gateway"
  else if code = 503 then "Service Unavailable"
  else ""

/-- Digit-string accumulator for `goScanInt`: consumes decimal digits,
failing on any non-digit character. -/
def parseDigitsAux : List Char → Nat → Option Nat
  | [], acc => some acc
  | c :: cs, acc =>
    if c.isDigit then parseDigitsAux cs (acc * 10 + (c.toNat - 48)) else none

/-- Syntactic part of Go's `strconv.Atoi`: an optional sign followed by at
least one decimal digit, and nothing else.  Returns the unbounded value. -/
def goScanInt (s : String) : Option Int :=
  match s.data with
  | [] => none
  | cs =>
    let signSplit : Bool × List Char :=
      match cs with
      | '-' :: r => (true, r)
      | '+' :: r => (false, r)
      | r => (false, r)
    match signSplit.2 with
    | [] => none
    | ds =>
      match parseDigitsAux ds 0 with
      | none => none
      | some n => some (if signSplit.1 then -(n : Int) else (n : Int))

/-- Largest value of Go's 64-bit `int`. -/
def maxInt64 : Int := 9223372036854775807

/-- Smallest value of Go's 64-bit `int`. -/
def minInt64 : Int := -9223372036854775808

/-- Model of Go's `strconv.Atoi` on a 64-bit platform: returns the parsed
value and an ok flag (`false` means Atoi returned a non-nil error).  A
syntactically invalid string yields `(0, false)`; a syntactically valid
number outside the `int64` range yields the clamped bound with `false`,
exactly as `strconv.ParseInt` does on `ErrRange`. -/
def goAtoi (s : String) : Int × Bool :=
  match goScanInt s with
  | none => (0, false)
  | some v =>
    if v > maxInt64 then (maxInt64, false)
    else if v < minInt64 then (minInt64, false)
    else (v, true)

/-! ## Go's `http.Header` (a map from canonicalized keys to value lists) -/

/-- Token-character test of Go's `textproto` `validHeaderFieldByte`. -/
def isTokenChar (c : Char) : Bool :=
  c.isAlphanum ||
    [33, 35, 36, 37, 38, 39, 42, 43, 45, 46, 94, 95, 96, 124, 126].contains c.toNat

/-- Case-folding pass of Go's `textproto.CanonicalMIMEHeaderKey`: uppercase
the first letter and every letter following a hyphen, lowercase the rest. -/
def canonChars : Bool → List Char → List Char
  | _, [] => []
  | upper, c :: cs =>
    let c' := if upper then c.toUpper else c.toLower
    c' :: canonChars (c' == '-') cs

/-- Model of Go's `textproto.CanonicalMIMEHeaderKey`: keys containing a
non-token character are returned unchanged, otherwise they are canonically
case-folded. -/
def canonicalKey (s : String) : String :=
  if s.data.all isTokenChar then (canonChars true s.data).asString else s

/-- A Go `http.Header` value: an association list standing for the map from
header key to value slice (Go map keys are unique; list order stands for an
arbitrary iteration order). -/
abbrev HeaderMap := List (String × List String)

/-- Map update: replace the entry for `k` if present, append it otherwise. -/
def setEntry : HeaderMap → String → List String → HeaderMap
  | [], k, vs => [(k, vs)]
  | (k', vs') :: rest, k, vs =>
    if k' == k then (k, vs) :: rest else (k', vs') :: setEntry rest k vs

/-- Map lookup by exact key. -/
def lookupEntry : HeaderMap → String → Option (List String)
  | [], _ => none
  | (k', vs') :: rest, k => if k' == k then some vs' else lookupEntry rest k

/-- Map deletion by exact key. -/
def eraseEntry : HeaderMap → String → HeaderMap
  | [], _ => []
  | (k', vs') :: rest, k => if k' == k then rest else (k', vs') :: eraseEntry rest k

/-- Go's `Header.Set k v`: stores `[v]` under the canonicalized key. -/
def hset (h : HeaderMap) (k v : String) : HeaderMap :=
  setEntry h (canonicalKey k) [v]

/-- Direct Go map assignment `header[k] = vs` (no canonicalization), as the
source's header-overlay loop does. -/
def hsetRaw (h : HeaderMap) (k : String) (vs : List String) : HeaderMap :=
  setEntry h k vs

/-- Go's `Header.Del k`: removes the canonicalized key. -/
def hdel (h : HeaderMap) (k : String) : HeaderMap :=
  eraseEntry h (canonicalKey k)

/-- Go's `Header.Get k`: first value stored under the canonicalized key, or
the empty string. -/
def hget (h : HeaderMap) (k : String) : String :=
  match lookupEntry h (canonicalKey k) with
  | some (v :: _) => v
  | _ => ""

/-- Raw map lookup `header[k]` by exact key. -/
def hgetValues (h : HeaderMap) (k : String) : Option (List String) :=
  lookupEntry h k

/-! ## Data model of request.go -/

/-- A Go `error` value as the source inspects it: its message text and
whether it satisfies the `Timeout() bool` interface probed by `isTimeout`. -/
structure GoErr where
  isTimeout : Bool
  msg : String
deriving DecidableEq, Repr

/-- The parts of `req.URL` the source reads or writes: scheme and host are
overwritten by `doSendClientRequest`; `rest` is the remainder of the URL as
built by `http.NewRequest` from `cli.getAPIPath(path, query)`. -/
structure GoUrl where
  scheme : String
  host : String
  rest : String
deriving DecidableEq, Repr

/-- Rendering of `req.URL.String()` for the fields we track. -/
def GoUrl.render (u : GoUrl) : String :=
  u.scheme ++ "://" ++ u.host ++ u.rest

/-- The parts of a Go `http.Request` the source manipulates. -/
structure GoRequest where
  url : GoUrl
  header : HeaderMap
deriving DecidableEq, Repr

/-- The client configuration fields of `Client` read by request.go. -/
structure Client where
  scheme : String
  addr : String
  version : String
  customHTTPHeaders : List (String × String)
deriving DecidableEq, Repr

/-- The `serverResponse` wrapper of request.go: `body`/`header` are `none`
for Go `nil`; `statusCode = -1` is the sentinel for "no response". -/
structure serverResponse where
  body : Option String
  header : Option HeaderMap
  statusCode : Int
deriving DecidableEq, Repr

/-- What `cli.httpClient.Do` handed back when it returned a non-nil
`*http.Response`: the status code, the response header, and the outcome of
`ioutil.ReadAll(resp.Body)` (content on success, error otherwise). -/
structure httpResp where
  statusCode : Int
  bodyContent : String
  bodyReadErr : Option GoErr
  header : HeaderMap
deriving DecidableEq, Repr

/-- The error value returned by `doSendClientRequest`: the shared
`ErrConnectionFailed` sentinel, a `fmt.Errorf` message, or an underlying Go
error returned verbatim. -/
inductive ClientError where
  | connectionFailed
  | msg (s : String)
  | raw (e : GoErr)
deriving DecidableEq, Repr

/-- Outcome of one `doSendClientRequest` call: a Go runtime panic (nil
dereference), or the returned `(serverResponse, error)` pair (the Go
function returns a non-nil response pointer on every `return` path). -/
inductive DoSendOutcome where
  | panicked
  | ret (resp : serverResponse) (err : Option ClientError)
deriving DecidableEq, Repr

/-- Outcome of one `tryProxy` call: a Go runtime panic, or its returned
`error` (possibly nil). -/
inductive ProxyOutcome where
  | panicked
  | ret (err : Option GoErr)
deriving DecidableEq, Repr

/-- What `http.Get` handed back inside `tryProxy` when it succeeded: the
status code and the bytes `ioutil.ReadAll` produced from the body. -/
structure proxyResp where
  statusCode : Int
  body : String
deriving DecidableEq, Repr

/-- Observable steps of one dispatch, instrumented for counting: the i-th
call of `doSendClientRequest`, the i-th `tryProxy` invocation, and a
`time.Sleep` of the given number of seconds. -/
inductive Event where
  | attempt (i : Nat)
  | probe (i : Nat)
  | sleep (seconds : Nat)
deriving DecidableEq, Repr

/-- Outcome of a whole `sendClientRequest` dispatch: a propagated Go panic,
or the final `(resp, err)` pair (`resp = none` for the initial nil). -/
inductive DispatchOutcome where
  | panicked
  | ret (resp : Option serverResponse) (err : Option ClientError)
deriving DecidableEq, Repr

/-- A dispatch outcome together with the trace of its observable steps. -/
structure DispatchResult where
  outcome : DispatchOutcome
  trace : List Event
deriving DecidableEq, Repr

/-! ## The operations of request.go -/

/-- Header application of `newRequest` (source lines 204-214): fold of
`req.Header.Set(k, v)` over `cli.customHTTPHeaders`, in the (arbitrary) map
iteration order the list represents. -/
def applyCustomHeaders (h : HeaderMap) (custom : List (String × String)) : HeaderMap :=
  custom.foldl (fun h kv => hset h kv.1 kv.2) h

/-- Header application of `newRequest` (source lines 210-214): when the
caller passed a headers map, fold of the raw assignment
`req.Header[k] = v` over it. -/
def applyHeaderOverlay (h : HeaderMap) (headers : Option (List (String × List String))) : HeaderMap :=
  match headers with
  | some hs => hs.foldl (fun h kv => hsetRaw h kv.1 kv.2) h
  | none => h

/-- Model of `newRequest` (source lines 197-217).  `nr` is the oracle for
`http.NewRequest(method, cli.getAPIPath(path, query), body)`: either the
construction error or the fresh request (whose header starts empty in Go).
On success the client's persistent custom headers are Set first and the
caller-supplied overlay is raw-assigned afterwards. -/
def newRequest (cli : Client) (nr : Except GoErr GoRequest)
    (headers : Option (List (String × List String))) : Except GoErr GoRequest :=
  match nr with
  | .error e => .error e
  | .ok req =>
    .ok { req with
          header := applyHeaderOverlay (applyCustomHeaders req.header cli.customHTTPHeaders) headers }

/-- The request as assembled by `doSendClientRequest` before the user-agent
override (source lines 143-150): `newRequest`, then `req.URL.Host` and
`req.URL.Scheme` are overwritten from the client, then a `Content-Type` of
`text/plain` is defaulted when a payload is expected (POST/PUT) and the
header has none.  The source ignores the `newRequest` error here; this
definition only propagates it so that `doSendClientRequest` can turn it
into the nil-dereference panic the Go code commits. -/
def builtRequest (cli : Client) (method : String)
    (headers : Option (List (String × List String)))
    (nr : Except GoErr GoRequest) : Except GoErr GoRequest :=
  match newRequest cli nr headers with
  | .error e => .error e
  | .ok req =>
    let req := { req with url := { req.url with host := cli.addr, scheme := cli.scheme } }
    let expectedPayload := method == "POST" || method == "PUT"
    if expectedPayload && (hget req.header "Content-Type" == "") then
      .ok { req with header := hset req.header "Content-Type" "text/plain" }
    else
      .ok req

/-- The user-agent override of `doSendClientRequest` (source lines 152-159).
`uaEnv` is the oracle for `syscall.Getenv("DOCKER_USER_AGENT")`: `none`
when the variable is unset, otherwise its value.  Empty value: the
`User-Agent` header is deleted; non-empty value: it is Set. -/
def applyUserAgentOverride (uaEnv : Option String) (req : GoRequest) : GoRequest :=
  match uaEnv with
  | some ua =>
    if ua.length == 0 then { req with header := hdel req.header "User-Agent" }
    else { req with header := hset req.header "User-Agent" ua }
  | none => req

/-- The fully prepared outgoing request of one attempt: `builtRequest`
followed by the user-agent override.  This is the request value handed to
`cli.httpClient.Do`. -/
def outgoingRequest (cli : Client) (method : String)
    (headers : Option (List (String × List String)))
    (nr : Except GoErr GoRequest) (uaEnv : Option String) : Except GoErr GoRequest :=
  match builtRequest cli method headers nr with
  | .error e => .error e
  | .ok req => .ok (applyUserAgentOverride uaEnv req)

/-- Model of `doSendClientRequest` (source lines 132-195).  Oracles: `nr`
for `http.NewRequest` (inside `newRequest`), `uaEnv` for the
`DOCKER_USER_AGENT` variable, and `(doResp, doErr)` for what
`cli.httpClient.Do(req)` returned (the response pointer, if non-nil, and
the error, if non-nil).  The source dereferences the request returned by
`newRequest` without checking its error (line 144), so a construction
failure is a nil-pointer panic; likewise a nil response with a nil error
would be dereferenced at `resp.Body`. -/
def doSendClientRequest (cli : Client) (method : String)
    (headers : Option (List (String × List String)))
    (nr : Except GoErr GoRequest) (uaEnv : Option String)
    (doResp : Option httpResp) (doErr : Option GoErr) : DoSendOutcome :=
  match outgoingRequest cli method headers nr uaEnv with
  | .error _ => .panicked
  | .ok req =>
    let sr0 : serverResponse := { body := none, header := none, statusCode := -1 }
    let sr := match doResp with
      | some r => { sr0 with statusCode := r.statusCode }
      | none => sr0
    match doErr with
    | some e =>
      if e.isTimeout || goContains e.msg "connection refused" || goContains e.msg "dial unix" then
        .ret sr (some .connectionFailed)
      else if cli.scheme == "http" && goContains e.msg "malformed HTTP response" then
        .ret sr (some (.msg (e.msg ++ ".\n* Are you trying to connect to a TLS-enabled daemon without TLS?")))
      else if cli.scheme == "https" && goContains e.msg "remote error: bad certificate" then
        .ret sr (some (.msg ("The server probably has client authentication (--tlsverify) enabled. Please check your TLS client certification settings: " ++ e.msg)))
      else
        .ret sr (some (.msg ("An error occurred trying to connect: " ++ e.msg)))
    | none =>
      match doResp with
      | none => .panicked
      | some r =>
        if sr.statusCode < 200 || 400 ≤ sr.statusCode then
          match r.bodyReadErr with
          | some e => .ret sr (some (.raw e))
          | none =>
            if r.bodyContent.length == 0 then
              .ret sr (some (.msg ("Error: request returned " ++ statusText sr.statusCode
                ++ " for API route and version " ++ req.url.render
                ++ ", check if the server supports the requested API version")))
            else
              .ret sr (some (.msg ("Error response from daemon: " ++ goTrimSpace r.bodyContent)))
        else
          .ret { sr with body := some r.bodyContent, header := some r.header } none

/-- Model of `tryProxy` (source lines 83-107).  Oracles: `firstGet` for
`http.Get` on the diagnostic URL (status code plus the bytes `ReadAll`
produced, whose error the source discards); `urlMatch` for the first
submatch of the regexp on the body, if the pattern matched with at least
two groups; `secondGet` for `http.Get` on the extracted URL.  The source
discards the second call's error (`resp, _ := http.Get(...)`) and then
calls `resp.Body.Close()`, so a failing second request is a nil-pointer
panic. -/
def tryProxy (firstGet : Except GoErr proxyResp) (urlMatch : Option String)
    (secondGet : Except GoErr proxyResp) : ProxyOutcome :=
  match firstGet with
  | .error e => .ret (some e)
  | .ok resp =>
    if resp.statusCode == 403 then
      match urlMatch with
      | some _ =>
        match secondGet with
        | .error _ => .panicked
        | .ok _ => .ret none
      | none =>
        .ret (some { isTimeout := false
                     msg := "can not handle status code" ++ toString resp.statusCode })
    else
      .ret (some { isTimeout := false
                   msg := "can not handle status code" ++ toString resp.statusCode })

/-- The retry condition of `sendClientRequest` (source line 121):
`resp.statusCode == 407 || resp.statusCode == 403 || resp.statusCode == -1`. -/
def retryableStatus (code : Int) : Bool :=
  code == 407 || code == 403 || code == -1

/-- The retry loop body of `sendClientRequest` (source lines 115-128),
instrumented with an event trace.  `fuel` is the number of loop iterations
still permitted (`retries + 1` at the start), `i` the current value of the
loop counter `try`; `resp`/`err` are the variables of the enclosing scope.
On a nil error the loop breaks; on a retryable status it invokes the probe
(whose returned error is discarded, but whose panic propagates) and sleeps
one second; on any other failure it breaks. -/
def sendLoop (attempts : Nat → DoSendOutcome) (probes : Nat → ProxyOutcome) :
    Nat → Nat → Option serverResponse → Option ClientError → DispatchResult
  | 0, _, resp, err => { outcome := .ret resp err, trace := [] }
  | fuel + 1, i, _resp, _err =>
    match attempts i with
    | .panicked => { outcome := .panicked, trace := [.attempt i] }
    | .ret sr e =>
      match e with
      | none => { outcome := .ret (some sr) none, trace := [.attempt i] }
      | some e' =>
        if retryableStatus sr.statusCode then
          match probes i with
          | .panicked => { outcome := .panicked, trace := [.attempt i, .probe i] }
          | .ret _ =>
            let r := sendLoop attempts probes fuel (i + 1) (some sr) (some e')
            { outcome := r.outcome
              trace := .attempt i :: .probe i :: .sleep 1 :: r.trace }
        else
          { outcome := .ret (some sr) (some e'), trace := [.attempt i] }

/-- Model of `sendClientRequest` (source lines 109-130).  `env` is the
value of `os.Getenv("DOCKER_HTTP_RETRY")` (empty when unset); its Atoi
error is discarded.  `attempts i` is the outcome of the i-th
`cli.doSendClientRequest` call; `probes i` the outcome of the `tryProxy`
call after the i-th attempt, were it reached.  The loop runs `try` from 0
to `retries` inclusive, so a negative parsed value runs no iteration and
the initial `nil` response and `errors.New("no requests made")` are
returned. -/
def sendClientRequest (env : String) (attempts : Nat → DoSendOutcome)
    (probes : Nat → ProxyOutcome) : DispatchResult :=
  let retries : Int := (goAtoi env).1
  let fuel : Nat := if retries < 0 then 0 else retries.toNat + 1
  sendLoop attempts probes fuel 0 none (some (.msg "no requests made"))

/-- True exactly on `Event.attempt` entries. -/
def isAttemptEvent : Event → Bool
  | .attempt _ => true
  | _ => false

/-- Number of physical attempts recorded in a dispatch trace. -/
def countAttempts (tr : List Event) : Nat :=
  tr.countP isAttemptEvent

/-- Transcription of the spec's Error Classifier mapping (spec section 4.4,
written from the spec's words, for comparison with the code): timeout or
refused-connection or failed local-socket dial yields ConnectionFailed;
otherwise malformed response under plaintext http yields the TLS-mismatch
hint; otherwise bad certificate under https yields the client-certificate
hint; anything else is a generic error wrapping the underlying message. -/
def specClassifyTransportError (scheme : String) (e : GoErr) : ClientError :=
  if e.isTimeout || goContains e.msg "connection refused" || goContains e.msg "dial unix" then
    .connectionFailed
  else if scheme == "http" && goContains e.msg "malformed HTTP response" then
    .msg (e.msg ++ ".\n* Are you trying to connect to a TLS-enabled daemon without TLS?")
  else if scheme == "https" && goContains e.msg "remote error: bad certificate" then
    .msg ("The server probably has client authentication (--tlsverify) enabled. Please check your TLS client certification settings: " ++ e.msg)
  else
    .msg ("An error occurred trying to connect: " ++ e.msg)

/-! ## Concrete example values used by witnesses and counterexamples -/

/-- A sample client configuration (plaintext scheme, as in a default
`tcp://` daemon connection). -/
def exCli : Client :=
  { scheme := "http", addr := "1.2.3.4:2375", version := "1.22",
    customHTTPHeaders := [("X-Meta", "base")] }

/-- A sample request as `http.NewRequest` would hand it back: empty header,
URL carrying the API path. -/
def exReq : GoRequest :=
  { url := { scheme := "http", host := "docker", rest := "/v1.22/info" },
    header := [] }

/-! ## Helper lemmas -/

theorem lookupEntry_setEntry_self (h : HeaderMap) (k : String) (vs : List String) :
    lookupEntry (setEntry h k vs) k = some vs := by
  induction h with
  | nil => simp [setEntry, lookupEntry]
  | cons kv rest ih =>
    obtain ⟨k', vs'⟩ := kv
    by_cases hk : k' = k
    · simp [setEntry, hk, lookupEntry]
    · simp [setEntry, lookupEntry, hk, ih]

theorem lookupEntry_setEntry_ne (h : HeaderMap) (k k' : String) (vs : List String)
    (hne : k' ≠ k) : lookupEntry (setEntry h k vs) k' = lookupEntry h k' := by
  have hne' : ¬(k = k') := fun hh => hne hh.symm
  induction h with
  | nil => simp [setEntry, lookupEntry, hne']
  | cons kv rest ih =>
    obtain ⟨k0, vs0⟩ := kv
    by_cases hk : k0 = k
    · subst hk
      simp [setEntry, lookupEntry, hne']
    · simp [setEntry, lookupEntry, hk, ih]

theorem lookupEntry_eq_none_of_not_mem (h : HeaderMap) (k : String)
    (hnm : k ∉ h.map Prod.fst) : lookupEntry h k = none := by
  induction h with
  | nil => rfl
  | cons kv rest ih =>
    simp only [List.map_cons, List.mem_cons] at hnm
    push_neg at hnm
    have h1 : ¬(kv.1 = k) := fun hh => hnm.1 hh.symm
    simpa [lookupEntry, h1] using ih hnm.2

theorem lookupEntry_eraseEntry_self (h : HeaderMap) (k : String)
    (hnd : (h.map Prod.fst).Nodup) : lookupEntry (eraseEntry h k) k = none := by
  induction h with
  | nil => rfl
  | cons kv rest ih =>
    obtain ⟨k0, vs0⟩ := kv
    simp only [List.map_cons, List.nodup_cons] at hnd
    by_cases hk : k0 = k
    · subst hk
      simpa [eraseEntry] using lookupEntry_eq_none_of_not_mem rest k0 hnd.1
    · simpa [eraseEntry, lookupEntry, hk] using ih hnd.2

theorem lookupEntry_overlay_of_not_mem (hs : List (String × List String)) (k : String) :
    ∀ h : HeaderMap, (∀ kv ∈ hs, kv.1 ≠ k) →
      lookupEntry (hs.foldl (fun h kv => hsetRaw h kv.1 kv.2) h) k = lookupEntry h k := by
  induction hs with
  | nil => intro h _; rfl
  | cons kv rest ih =>
    intro h hni
    have hne : k ≠ kv.1 := fun hh => hni kv (by simp) hh.symm
    calc lookupEntry ((kv :: rest).foldl (fun h kv => hsetRaw h kv.1 kv.2) h) k
        = lookupEntry (rest.foldl (fun h kv => hsetRaw h kv.1 kv.2) (hsetRaw h kv.1 kv.2)) k := by
          simp [List.foldl_cons]
      _ = lookupEntry (hsetRaw h kv.1 kv.2) k := ih _ (fun kv' hm => hni kv' (by simp [hm]))
      _ = lookupEntry h k := lookupEntry_setEntry_ne h kv.1 k kv.2 hne

theorem lookupEntry_overlay_mem (hs : List (String × List String)) (k : String)
    (vs : List String) :
    ∀ h : HeaderMap, (k, vs) ∈ hs → (hs.map Prod.fst).Nodup →
      lookupEntry (hs.foldl (fun h kv => hsetRaw h kv.1 kv.2) h) k = some vs := by
  induction hs with
  | nil => intro h hm; simp at hm
  | cons kv rest ih =>
    intro h hm hnd
    simp only [List.map_cons, List.nodup_cons] at hnd
    rcases List.mem_cons.1 hm with hm | hm
    · subst hm
      have hrest : ∀ kv' ∈ rest, kv'.1 ≠ k := by
        intro kv' hmem heq
        apply hnd.1
        show k ∈ rest.map Prod.fst
        have hmm := List.mem_map_of_mem Prod.fst hmem
        rwa [heq] at hmm
      calc lookupEntry (((k, vs) :: rest).foldl (fun h kv => hsetRaw h kv.1 kv.2) h) k
          = lookupEntry (rest.foldl (fun h kv => hsetRaw h kv.1 kv.2) (hsetRaw h k vs)) k := by
            simp [List.foldl_cons]
        _ = lookupEntry (hsetRaw h k vs) k := lookupEntry_overlay_of_not_mem rest k _ hrest
        _ = some vs := lookupEntry_setEntry_self h k vs
    · simpa [List.foldl_cons] using ih (hsetRaw h kv.1 kv.2) hm hnd.2

theorem sendLoop_trace_all_retryable (attempts : Nat → DoSendOutcome)
    (probes : Nat → ProxyOutcome) :
    ∀ (fuel i : Nat) (resp : Option serverResponse) (err : Option ClientError),
      (∀ j, j < fuel → ∃ sr e, attempts (i + j) = .ret sr (some e) ∧
        retryableStatus sr.statusCode = true) →
      (∀ j, j < fuel → probes (i + j) ≠ .panicked) →
      (sendLoop attempts probes fuel i resp err).trace
        = (List.range fuel).flatMap
            (fun j => [.attempt (i + j), .probe (i + j), .sleep 1]) := by
  intro fuel
  induction fuel with
  | zero => intro i resp err _ _; simp [sendLoop]
  | succ fuel ih =>
    intro i resp err h1 h2
    obtain ⟨sr, e, hA, hR⟩ := h1 0 (Nat.succ_pos fuel)
    simp only [Nat.add_zero] at hA
    have hP : probes i ≠ .panicked := by simpa using h2 0 (Nat.succ_pos fuel)
    cases hPr : probes i with
    | panicked => exact absurd hPr hP
    | ret pe =>
      have hrec := ih (i + 1) (some sr) (some e)
        (fun j hj => by
          obtain ⟨sr', e', hA', hR'⟩ := h1 (j + 1) (by omega)
          refine ⟨sr', e', ?_, hR'⟩
          rwa [show i + (j + 1) = (i + 1) + j by omega] at hA')
        (fun j hj => by
          have := h2 (j + 1) (by omega)
          rwa [show i + (j + 1) = (i + 1) + j by omega] at this)
      simp only [sendLoop, hA, hR, hPr, if_true]
      rw [hrec, List.range_succ_eq_map, List.flatMap_cons, List.flatMap_map]
      have hfun : (fun j => [Event.attempt (i + 1 + j), Event.probe (i + 1 + j), Event.sleep 1])
          = fun j => [Event.attempt (i + Nat.succ j), Event.probe (i + Nat.succ j), Event.sleep 1] := by
        funext j
        have hidx : i + 1 + j = i + Nat.succ j := by omega
        rw [hidx]
      simp [hfun]

theorem countAttempts_retryBlocks (n : Nat) :
    ∀ i, countAttempts ((List.range n).flatMap
        (fun j => [.attempt (i + j), .probe (i + j), .sleep 1])) = n := by
  induction n with
  | zero => intro i; simp [countAttempts]
  | succ n ih =>
    intro i
    rw [List.range_succ, List.flatMap_append]
    simp [countAttempts, List.countP_append, isAttemptEvent, List.countP_cons] at ih ⊢
    exact ih i

/-! ## Claims -/

/-- Counterexample to C1 as stated: a dispatch with retry budget N = 1
(greater than 0) in which every attempt fails with status 407 but the
Proxy Unlock Probe invocation panics (a reachable probe behaviour: its
diagnostic call returns 403 with an extractable URL and the second
`http.Get` fails, the nil-dereference of C3).  The claim demands exactly
N+1 = 2 attempts for every such dispatch; this one aborts after 1 attempt
with the panic propagating out of the loop. -/
theorem dispatcher_retries_counterexample :
    (goAtoi "1").1 = (1 : Int) ∧
    sendClientRequest "1"
        (fun _ => .ret { body := none, header := none, statusCode := 407 } (some (.msg "x")))
        (fun _ => tryProxy
          (.ok { statusCode := 403,
                 body := "auth at \"http://proxy/auth2?to=http://daemon/unlock\"" })
          (some "http://proxy/auth2?to=http://daemon/unlock")
          (.error { isTimeout := false, msg := "connection reset by peer" }))
      = { outcome := .panicked, trace := [.attempt 0, .probe 0] } ∧
    ¬(countAttempts (sendClientRequest "1"
        (fun _ => .ret { body := none, header := none, statusCode := 407 } (some (.msg "x")))
        (fun _ => tryProxy
          (.ok { statusCode := 403,
                 body := "auth at \"http://proxy/auth2?to=http://daemon/unlock\"" })
          (some "http://proxy/auth2?to=http://daemon/unlock")
          (.error { isTimeout := false, msg := "connection reset by peer" }))).trace
      = 1 + 1) := by
  refine ⟨by decide, by decide, by decide⟩

/-- C1 (amended): for every dispatch where each attempt fails with a
status code in {407, 403, -1}, the retry budget N (read from the
`DOCKER_HTTP_RETRY` configuration at dispatch start) is greater than 0,
and no Proxy Unlock Probe invocation panics (the probe's nil-dereference
panic is C3's bug; a panicking probe aborts the dispatch early, see the
counterexample), the Dispatcher makes exactly N+1 attempts, and between
consecutive attempts it invokes the Proxy Unlock Probe and sleeps a fixed
1-second backoff.  (The trace equation shows one probe invocation and one
1-second sleep between any two consecutive attempts.) -/
theorem dispatcher_retries_on_proxy_statuses (env : String) (N : Nat)
    (attempts : Nat → DoSendOutcome) (probes : Nat → ProxyOutcome)
    (henv : (goAtoi env).1 = (N : Int)) (hpos : 0 < N)
    (hatt : ∀ i, i ≤ N → ∃ sr e, attempts i = .ret sr (some e) ∧
      (sr.statusCode = 407 ∨ sr.statusCode = 403 ∨ sr.statusCode = -1))
    (hpr : ∀ i, i ≤ N → probes i ≠ .panicked) :
    countAttempts (sendClientRequest env attempts probes).trace = N + 1 ∧
    (sendClientRequest env attempts probes).trace
      = (List.range (N + 1)).flatMap
          (fun i => [.attempt i, .probe i, .sleep 1]) := by
  have hforall1 : ∀ j, j < N + 1 → ∃ sr e, attempts (0 + j) = .ret sr (some e) ∧
      retryableStatus sr.statusCode = true := by
    intro j hj
    obtain ⟨sr, e, hA, hS⟩ := hatt j (by omega)
    refine ⟨sr, e, by simpa using hA, ?_⟩
    rcases hS with h | h | h <;> simp [retryableStatus, h]
  have hforall2 : ∀ j, j < N + 1 → probes (0 + j) ≠ .panicked := by
    intro j hj
    simpa using hpr j (by omega)
  have htrace := sendLoop_trace_all_retryable attempts probes (N + 1) 0 none
    (some (.msg "no requests made")) hforall1 hforall2
  have hsend : sendClientRequest env attempts probes
      = sendLoop attempts probes (N + 1) 0 none (some (.msg "no requests made")) := by
    unfold sendClientRequest
    rw [henv]
    norm_num
    rw [if_neg (by omega)]
  rw [hsend, htrace]
  constructor
  · simpa using countAttempts_retryBlocks (N + 1) 0
  · congr 1
    funext j
    simp

/-- Witness for C1 at budget 2 with all attempts failing on status 407. -/
theorem dispatcher_retries_on_proxy_statuses_witness :
    countAttempts (sendClientRequest "2"
        (fun _ => .ret { body := none, header := none, statusCode := 407 } (some (.msg "x")))
        (fun _ => .ret none)).trace = 3 ∧
    (sendClientRequest "2"
        (fun _ => .ret { body := none, header := none, statusCode := 407 } (some (.msg "x")))
        (fun _ => .ret none)).trace
      = (List.range 3).flatMap (fun i => [.attempt i, .probe i, .sleep 1]) := by
  have h := dispatcher_retries_on_proxy_statuses "2" 2
    (fun _ => .ret { body := none, header := none, statusCode := 407 } (some (.msg "x")))
    (fun _ => .ret none)
    (by decide) (by decide)
    (fun i _ => ⟨_, _, rfl, Or.inl rfl⟩)
    (fun i _ h => ProxyOutcome.noConfusion h)
  simpa using h

/-- C2: a dispatch whose first attempt fails with a status code outside
{407, 403, -1} makes exactly 1 attempt regardless of the retry budget
(quantified over every configuration value that parses to a non-negative
budget, i.e. every dispatch that runs a first attempt at all), and a
dispatch whose first attempt succeeds returns that envelope after the first
attempt, with no probe and no sleep in the trace. -/
theorem dispatcher_single_attempt (env : String)
    (att1 att2 : Nat → DoSendOutcome) (probes1 probes2 : Nat → ProxyOutcome)
    (sr1 sr2 : serverResponse) (e1 : ClientError)
    (hN : 0 ≤ (goAtoi env).1)
    (h1 : att1 0 = .ret sr1 (some e1))
    (h1s : sr1.statusCode ≠ 407 ∧ sr1.statusCode ≠ 403 ∧ sr1.statusCode ≠ -1)
    (h2 : att2 0 = .ret sr2 none) :
    sendClientRequest env att1 probes1
      = { outcome := .ret (some sr1) (some e1), trace := [.attempt 0] } ∧
    sendClientRequest env att2 probes2
      = { outcome := .ret (some sr2) none, trace := [.attempt 0] } := by
  have hret : retryableStatus sr1.statusCode = false := by
    obtain ⟨a, b, c⟩ := h1s
    simp [retryableStatus]
    omega
  constructor
  · simp only [sendClientRequest]
    rw [if_neg (by omega)]
    simp [sendLoop, h1, hret]
  · simp only [sendClientRequest]
    rw [if_neg (by omega)]
    simp [sendLoop, h2]

/-- Witness for C2 at budget 5: a 500 failure stops after one attempt, and
a 200 success returns after one attempt. -/
theorem dispatcher_single_attempt_witness :
    sendClientRequest "5"
        (fun _ => .ret { body := none, header := none, statusCode := 500 } (some (.msg "boom")))
        (fun _ => .ret none)
      = { outcome := .ret (some { body := none, header := none, statusCode := 500 })
            (some (.msg "boom")), trace := [.attempt 0] } ∧
    sendClientRequest "5"
        (fun _ => .ret { body := some "ok", header := some [], statusCode := 200 } none)
        (fun _ => .ret none)
      = { outcome := .ret (some { body := some "ok", header := some [], statusCode := 200 }) none,
          trace := [.attempt 0] } := by
  exact dispatcher_single_attempt "5" _ _ _ _ _ _ _ (by decide) rfl (by decide) rfl

/-- Attempt count of a single remaining loop iteration: whatever the first
attempt does (panic, success, retryable or non-retryable failure), exactly
one attempt event is recorded when the fuel is 1. -/
theorem countAttempts_sendLoop_one (att : Nat → DoSendOutcome)
    (probes : Nat → ProxyOutcome) (i : Nat) (resp : Option serverResponse)
    (err : Option ClientError) :
    countAttempts (sendLoop att probes 1 i resp err).trace = 1 := by
  cases hA : att i with
  | panicked => simp [sendLoop, hA, countAttempts, isAttemptEvent]
  | ret sr e =>
    cases e with
    | none => simp [sendLoop, hA, countAttempts, isAttemptEvent]
    | some e' =>
      by_cases hR : retryableStatus sr.statusCode
      · cases hP : probes i with
        | panicked => simp [sendLoop, hA, hR, hP, countAttempts, isAttemptEvent]
        | ret pe =>
          simp [sendLoop, hA, hR, hP, countAttempts, isAttemptEvent, List.countP_cons]
      · simp [sendLoop, hA, hR, countAttempts, isAttemptEvent]

/-- Counterexample to C10 as stated: the string
`"99999999999999999999"` does not parse as an integer (Go's `strconv.Atoi`
returns an error for it), but the budget is not treated as 0: Atoi returns
the clamped `maxInt64` together with its range error, the discarded-error
assignment keeps the clamped value, and a dispatch under this value makes
2 attempts when the first fails with a retryable status — not exactly one. -/
theorem retry_budget_parse_counterexample :
    (goAtoi "99999999999999999999").2 = false ∧
    (goAtoi "99999999999999999999").1 = 9223372036854775807 ∧
    countAttempts (sendClientRequest "99999999999999999999"
        (fun i => if i == 0
          then .ret { body := none, header := none, statusCode := 407 } (some (.msg "x"))
          else .ret { body := none, header := none, statusCode := 500 } (some (.msg "y")))
        (fun _ => .ret none)).trace = 2 := by
  refine ⟨by decide, by decide, ?_⟩
  have hloop : ∀ m : Nat, (sendLoop
      (fun i => if i == 0
        then DoSendOutcome.ret { body := none, header := none, statusCode := 407 } (some (.msg "x"))
        else DoSendOutcome.ret { body := none, header := none, statusCode := 500 } (some (.msg "y")))
      (fun _ => ProxyOutcome.ret none) (m + 2) 0 none
      (some (.msg "no requests made"))).trace
      = [.attempt 0, .probe 0, .sleep 1, .attempt 1] := by
    intro m
    simp [sendLoop, retryableStatus]
  have henv : (goAtoi "99999999999999999999").1 = 9223372036854775807 := by decide
  simp only [sendClientRequest, henv]
  rw [if_neg (by norm_num)]
  have htn : (9223372036854775807 : Int).toNat + 1 = 9223372036854775806 + 2 := by decide
  rw [htn, hloop]
  decide

/-- C10 (amended): a configuration value that parses to a negative integer
makes the Dispatcher run zero attempts and return the nil envelope with the
sentinel error "no requests made"; a value that fails to parse for a
syntactic reason (empty, or not an optionally signed digit string) gives a
budget of 0 and exactly one attempt.  (Syntactically valid numbers outside
the 64-bit integer range are clamped, not treated as 0 — see the
counterexample.) -/
theorem retry_budget_parse_behavior (env1 env2 : String)
    (attempts1 attempts2 : Nat → DoSendOutcome) (probes1 probes2 : Nat → ProxyOutcome)
    (hneg : (goAtoi env1).1 < 0)
    (hsyn : goScanInt env2 = none) :
    sendClientRequest env1 attempts1 probes1
      = { outcome := .ret none (some (.msg "no requests made")), trace := [] } ∧
    (goAtoi env2).1 = 0 ∧
    countAttempts (sendClientRequest env2 attempts2 probes2).trace = 1 := by
  have h0 : (goAtoi env2).1 = 0 := by simp [goAtoi, hsyn]
  refine ⟨?_, h0, ?_⟩
  · simp only [sendClientRequest]
    rw [if_pos hneg]
    simp [sendLoop]
  · simp only [sendClientRequest, h0]
    rw [if_neg (by norm_num)]
    exact countAttempts_sendLoop_one _ _ _ _ _

/-- Witness for the amended C10: `"-3"` yields zero attempts and the
sentinel error; `"abc"` yields budget 0 and one attempt. -/
theorem retry_budget_parse_behavior_witness :
    sendClientRequest "-3"
        (fun _ => .ret { body := none, header := none, statusCode := 500 } (some (.msg "e")))
        (fun _ => .ret none)
      = { outcome := .ret none (some (.msg "no requests made")), trace := [] } ∧
    (goAtoi "abc").1 = 0 ∧
    countAttempts (sendClientRequest "abc"
        (fun _ => .ret { body := none, header := none, statusCode := 500 } (some (.msg "e")))
        (fun _ => .ret none)).trace = 1 := by
  exact retry_budget_parse_behavior "-3" "abc" _ _ _ _ (by decide) (by decide)

/-- C3 is violated by the code: when the diagnostic request returns 403
with a body from which a proxy-unlock URL is extracted, and the second
`http.Get` fails, `tryProxy` discards that error (`resp, _ := http.Get`)
and then calls `resp.Body.Close()` on the nil response — a runtime panic;
far from being absorbed, it propagates through `sendClientRequest` and
aborts the dispatch, changing what the Dispatcher returns for the original
request. -/
theorem tryProxy_panics_on_failed_second_request :
    tryProxy (.ok { statusCode := 403, body := "auth at \"http://proxy/auth?to=http://daemon/unlock\"" })
        (some "http://proxy/auth?to=http://daemon/unlock")
        (.error { isTimeout := false, msg := "connection reset" })
      = .panicked ∧
    sendClientRequest "1"
        (fun _ => .ret { body := none, header := none, statusCode := 407 } (some (.msg "x")))
        (fun _ => tryProxy (.ok { statusCode := 403, body := "auth at \"http://proxy/auth?to=http://daemon/unlock\"" })
          (some "http://proxy/auth?to=http://daemon/unlock")
          (.error { isTimeout := false, msg := "connection reset" }))
      = { outcome := .panicked, trace := [.attempt 0, .probe 0] } := by
  constructor
  · rfl
  · decide

/-- C4 is violated by the code: `doSendClientRequest` never checks the
error returned by `newRequest` (source line 143) and immediately executes
`req.URL.Host = cli.addr` on the nil request pointer, so an input whose
request object cannot be constructed (here: a method containing a space,
which `http.NewRequest` rejects) crashes with a nil-pointer panic instead
of surfacing the construction error to the caller. -/
theorem doSendClientRequest_panics_on_construction_failure :
    doSendClientRequest exCli "bad method" none
        (.error { isTimeout := false, msg := "net/http: invalid method \"bad method\"" })
        none none none
      = .panicked := rfl

/-- C5: on a transport-level error from `httpClient.Do`, the single-attempt
sender returns exactly the error produced by the spec's ordered classifier
mapping: timeout or refused-connection or failed local-socket dial yields
ConnectionFailed; otherwise a malformed-HTTP-response message under the
plaintext http scheme yields the TLS-mismatch error with its hint;
otherwise a bad-certificate message under https yields the
client-certificate error with its hint; anything else yields the generic
wrapper around the underlying message. -/
theorem transport_error_classification (cli : Client) (method : String)
    (headers : Option (List (String × List String)))
    (nr : Except GoErr GoRequest) (uaEnv : Option String)
    (doResp : Option httpResp) (e : GoErr) (req : GoRequest)
    (hok : outgoingRequest cli method headers nr uaEnv = .ok req) :
    doSendClientRequest cli method headers nr uaEnv doResp (some e)
      = .ret { body := none, header := none,
               statusCode := match doResp with | some r => r.statusCode | none => -1 }
          (some (specClassifyTransportError cli.scheme e)) := by
  cases doResp with
  | none =>
    simp only [doSendClientRequest, hok, specClassifyTransportError]
    split <;> simp_all
    all_goals try (split <;> simp_all)
    all_goals try (split <;> simp_all)
  | some r =>
    simp only [doSendClientRequest, hok, specClassifyTransportError]
    split <;> simp_all
    all_goals try (split <;> simp_all)
    all_goals try (split <;> simp_all)

/-- Witness for C5: a failed local-socket dial is classified as
ConnectionFailed. -/
theorem transport_error_classification_witness :
    outgoingRequest exCli "GET" none (.ok exReq) none
      = .ok { url := { scheme := "http", host := "1.2.3.4:2375", rest := "/v1.22/info" },
              header := [("X-Meta", ["base"])] } ∧
    doSendClientRequest exCli "GET" none (.ok exReq) none none
        (some { isTimeout := false, msg := "dial unix /var/run/docker.sock: connection refused" })
      = .ret { body := none, header := none, statusCode := -1 } (some .connectionFailed) := by
  have hok : outgoingRequest exCli "GET" none (.ok exReq) none
      = .ok { url := { scheme := "http", host := "1.2.3.4:2375", rest := "/v1.22/info" },
              header := [("X-Meta", ["base"])] } := by rfl
  refine ⟨hok, ?_⟩
  have h := transport_error_classification exCli "GET" none (.ok exReq) none none
    { isTimeout := false, msg := "dial unix /var/run/docker.sock: connection refused" } _ hok
  have hcl : specClassifyTransportError exCli.scheme
      { isTimeout := false, msg := "dial unix /var/run/docker.sock: connection refused" }
      = .connectionFailed := by decide
  rw [hcl] at h
  exact h

/-- Substring containment from an explicit decomposition. -/
theorem goContains_of_parts (s pre mid post : String) (h : s = pre ++ mid ++ post) :
    goContains s mid = true := by
  subst h
  simp only [goContains, decide_eq_true_eq]
  refine ⟨pre.data, post.data, ?_⟩
  simp [String.data_append]

/-- A non-empty string has a non-zero length (in the Bool form the embedded
source tests). -/
theorem length_beq_zero_eq_false (s : String) (h : s ≠ "") : (s.length == 0) = false := by
  cases s with
  | mk data =>
    cases data with
    | nil => exact absurd rfl h
    | cons c cs => simp [String.length]

/-- Counterexample to C6 as stated: for a non-empty error body, the
returned message is not equal to the trimmed body text — the code prefixes
it with "Error response from daemon: ". -/
theorem daemon_error_message_counterexample :
    doSendClientRequest exCli "GET" none (.ok exReq) none
        (some { statusCode := 500, bodyContent := " boom ", bodyReadErr := none, header := [] })
        none
      = .ret { body := none, header := none, statusCode := 500 }
          (some (.msg "Error response from daemon: boom")) ∧
    "Error response from daemon: boom" ≠ goTrimSpace " boom " := by
  constructor
  · rfl
  · decide

/-- C6 (amended): for an attempt whose response status is outside
[200,400): with an empty body, the returned error message contains the
HTTP status text and the requested route (it is the fixed
"Error: request returned ... for API route and version ..." sentence);
with a non-empty body, the returned error message is the fixed prefix
"Error response from daemon: " followed by the trimmed body text (not the
trimmed body text alone). -/
theorem error_status_message_contents (cli : Client) (method : String)
    (headers : Option (List (String × List String)))
    (nr : Except GoErr GoRequest) (uaEnv : Option String) (req : GoRequest)
    (r1 r2 : httpResp)
    (hok : outgoingRequest cli method headers nr uaEnv = .ok req)
    (hs1 : r1.statusCode < 200 ∨ 400 ≤ r1.statusCode)
    (hr1 : r1.bodyReadErr = none) (hb1 : r1.bodyContent = "")
    (hs2 : r2.statusCode < 200 ∨ 400 ≤ r2.statusCode)
    (hr2 : r2.bodyReadErr = none) (hb2 : r2.bodyContent ≠ "") :
    doSendClientRequest cli method headers nr uaEnv (some r1) none
      = .ret { body := none, header := none, statusCode := r1.statusCode }
          (some (.msg ("Error: request returned " ++ statusText r1.statusCode
            ++ " for API route and version " ++ req.url.render
            ++ ", check if the server supports the requested API version"))) ∧
    goContains ("Error: request returned " ++ statusText r1.statusCode
        ++ " for API route and version " ++ req.url.render
        ++ ", check if the server supports the requested API version")
      (statusText r1.statusCode) = true ∧
    goContains ("Error: request returned " ++ statusText r1.statusCode
        ++ " for API route and version " ++ req.url.render
        ++ ", check if the server supports the requested API version")
      req.url.render = true ∧
    doSendClientRequest cli method headers nr uaEnv (some r2) none
      = .ret { body := none, header := none, statusCode := r2.statusCode }
          (some (.msg ("Error response from daemon: " ++ goTrimSpace r2.bodyContent))) := by
  refine ⟨?_, ?_, ?_, ?_⟩
  · simp only [doSendClientRequest, hok]
    have hcond : (r1.statusCode < 200 ∨ 400 ≤ r1.statusCode) := hs1
    rw [if_pos]
    · rw [hr1, hb1]
      simp
    · simpa using hcond
  · apply goContains_of_parts _ "Error: request returned " _
      (" for API route and version " ++ req.url.render
        ++ ", check if the server supports the requested API version")
    simp [String.append_assoc]
  · apply goContains_of_parts _
      ("Error: request returned " ++ statusText r1.statusCode ++ " for API route and version ")
      _ ", check if the server supports the requested API version"
    simp [String.append_assoc]
  · simp only [doSendClientRequest, hok]
    rw [if_pos]
    · rw [hr2]
      rw [length_beq_zero_eq_false r2.bodyContent hb2]
      simp
    · simpa using hs2

/-- Witness for the amended C6: a 404 with empty body yields the
status-text/route message; a 500 with body " boom\n" yields the prefixed
trimmed body. -/
theorem error_status_message_contents_witness :
    doSendClientRequest exCli "GET" none (.ok exReq) none
        (some { statusCode := 404, bodyContent := "", bodyReadErr := none, header := [] }) none
      = .ret { body := none, header := none, statusCode := 404 }
          (some (.msg "Error: request returned Not Found for API route and version http://1.2.3.4:2375/v1.22/info, check if the server supports the requested API version")) ∧
    goContains "Error: request returned Not Found for API route and version http://1.2.3.4:2375/v1.22/info, check if the server supports the requested API version"
      "Not Found" = true ∧
    goContains "Error: request returned Not Found for API route and version http://1.2.3.4:2375/v1.22/info, check if the server supports the requested API version"
      "http://1.2.3.4:2375/v1.22/info" = true ∧
    doSendClientRequest exCli "GET" none (.ok exReq) none
        (some { statusCode := 500, bodyContent := " boom\n", bodyReadErr := none, header := [] }) none
      = .ret { body := none, header := none, statusCode := 500 }
          (some (.msg "Error response from daemon: boom")) := by
  have h := error_status_message_contents exCli "GET" none (.ok exReq) none
    { url := { scheme := "http", host := "1.2.3.4:2375", rest := "/v1.22/info" },
      header := [("X-Meta", ["base"])] }
    { statusCode := 404, bodyContent := "", bodyReadErr := none, header := [] }
    { statusCode := 500, bodyContent := " boom\n", bodyReadErr := none, header := [] }
    (by rfl) (by right; norm_num) rfl rfl (by right; norm_num) rfl (by decide)
  exact h

/-- Counterexample to C7 as stated: when the transport returns both a
response and an error (as Go's `http.Client.Do` does when a redirect
policy fails — the response carries the 3xx status), the envelope's
statusCode lands in [200,400) while its body is nil and an error is
returned alongside it. -/
theorem envelope_invariant_counterexample :
    doSendClientRequest exCli "GET" none (.ok exReq) none
        (some { statusCode := 302, bodyContent := "", bodyReadErr := none, header := [] })
        (some { isTimeout := false, msg := "stopped after 10 redirects" })
      = .ret { body := none, header := none, statusCode := 302 }
          (some (.msg "An error occurred trying to connect: stopped after 10 redirects")) ∧
    ¬(∀ sr err, doSendClientRequest exCli "GET" none (.ok exReq) none
        (some { statusCode := 302, bodyContent := "", bodyReadErr := none, header := [] })
        (some { isTimeout := false, msg := "stopped after 10 redirects" })
        = .ret sr err → 200 ≤ sr.statusCode → sr.statusCode < 400 →
          sr.body.isSome = true ∧ err = none) := by
  have h1 : doSendClientRequest exCli "GET" none (.ok exReq) none
      (some { statusCode := 302, bodyContent := "", bodyReadErr := none, header := [] })
      (some { isTimeout := false, msg := "stopped after 10 redirects" })
      = .ret { body := none, header := none, statusCode := 302 }
          (some (.msg "An error occurred trying to connect: stopped after 10 redirects")) := by
    rfl
  refine ⟨h1, ?_⟩
  intro hall
  have := hall _ _ h1 (by norm_num) (by norm_num)
  simp at this

/-- C7 (amended): whenever the single-attempt sender returns an envelope
with no error, the statusCode is in [200,400) and the body and headers are
populated; whenever it returns an envelope together with an error, the
body is nil and the diagnostic is carried by the error.  (The claim's
original phrasing keyed on the status range alone; it fails when the
transport hands back both a 3xx response and a redirect-policy error, as
the counterexample shows.) -/
theorem envelope_invariant (cli : Client) (method : String)
    (headers : Option (List (String × List String)))
    (nr : Except GoErr GoRequest) (uaEnv : Option String)
    (doResp : Option httpResp) (doErr : Option GoErr)
    (sr : serverResponse) (err : Option ClientError)
    (h : doSendClientRequest cli method headers nr uaEnv doResp doErr = .ret sr err) :
    (err = none → (200 ≤ sr.statusCode ∧ sr.statusCode < 400)
      ∧ sr.body.isSome = true ∧ sr.header.isSome = true) ∧
    (err ≠ none → sr.body = none) := by
  cases hnr : outgoingRequest cli method headers nr uaEnv with
  | error e0 =>
    simp only [doSendClientRequest, hnr] at h
    exact DoSendOutcome.noConfusion h
  | ok req =>
    cases doResp <;> cases doErr <;>
      simp only [doSendClientRequest, hnr] at h <;>
      (try exact DoSendOutcome.noConfusion h) <;>
      (try split at h) <;>
      (try split at h) <;>
      (try split at h) <;>
      (try exact DoSendOutcome.noConfusion h) <;>
      (try (injection h with h1 h2)) <;>
      (try subst h1) <;>
      (try subst h2) <;>
      (try exact ⟨fun he => by simp at he, fun _ => rfl⟩) <;>
      (rename_i hc
       simp only [Bool.or_eq_true, decide_eq_true_eq, not_or] at hc
       refine ⟨fun _ => ⟨?_, by simp, by simp⟩, fun hne => absurd rfl hne⟩
       dsimp only
       omega)

/-- Witness for the amended C7: a 200 response populates body and headers
with no error. -/
theorem envelope_invariant_witness :
    ((none : Option ClientError) = none → ((200:Int) ≤ 200 ∧ (200:Int) < 400)
      ∧ (some "hello").isSome = true ∧ (some ([] : HeaderMap)).isSome = true) ∧
    ((none : Option ClientError) ≠ none → (some "hello") = none) := by
  have h := envelope_invariant exCli "GET" none (.ok exReq) none
    (some { statusCode := 200, bodyContent := "hello", bodyReadErr := none, header := [] })
    none { body := some "hello", header := some [], statusCode := 200 } none (by rfl)
  exact h

/-- C8: the client's persistent custom headers are applied first (via
`Header.Set`) and the caller-supplied overlay is raw-assigned afterwards,
so for any key present in both maps the built request carries the
caller-supplied value under that key — the overlay may overwrite any
client default. -/
theorem caller_header_overlay_wins (cli : Client) (req0 : GoRequest)
    (hs : List (String × List String)) (k : String) (vs : List String)
    (v0 : String) (req : GoRequest)
    (hboth1 : (k, vs) ∈ hs) (hboth2 : (k, v0) ∈ cli.customHTTPHeaders)
    (hnd : (hs.map Prod.fst).Nodup)
    (hok : newRequest cli (.ok req0) (some hs) = .ok req) :
    hgetValues req.header k = some vs := by
  simp only [newRequest, applyHeaderOverlay, Except.ok.injEq] at hok
  have hh : req.header
      = hs.foldl (fun h kv => hsetRaw h kv.1 kv.2)
          (applyCustomHeaders req0.header cli.customHTTPHeaders) := by
    rw [← hok]
  rw [hgetValues, hh]
  exact lookupEntry_overlay_mem hs k vs _ hboth1 hnd

/-- Witness for C8: the client default for "X-Meta" is overwritten by the
caller-supplied overlay value. -/
theorem caller_header_overlay_wins_witness :
    newRequest exCli (.ok exReq) (some [("X-Meta", ["caller"])])
      = .ok { url := exReq.url, header := [("X-Meta", ["caller"])] } ∧
    hgetValues (GoRequest.header { url := exReq.url, header := [("X-Meta", ["caller"])] })
      "X-Meta" = some ["caller"] := by
  have hok : newRequest exCli (.ok exReq) (some [("X-Meta", ["caller"])])
      = .ok { url := exReq.url, header := [("X-Meta", ["caller"])] } := by rfl
  exact ⟨hok, caller_header_overlay_wins exCli exReq [("X-Meta", ["caller"])]
    "X-Meta" ["caller"] "base" _ (by simp) (by simp [exCli]) (by simp) hok⟩

/-- C9: the user-agent override applied to every attempt's outgoing
request: an override set to the empty string deletes the `User-Agent`
header (no entry remains under that key); an override set to a non-empty
string X makes the outgoing header exactly X; an unset override leaves the
built request — and hence the client's default `User-Agent` — unchanged. -/
theorem user_agent_override_behavior (cli : Client) (method : String)
    (headers : Option (List (String × List String)))
    (nr : Except GoErr GoRequest) (X : String) (reqB : GoRequest)
    (hB : builtRequest cli method headers nr = .ok reqB)
    (hnd : (reqB.header.map Prod.fst).Nodup)
    (hX : X ≠ "") :
    outgoingRequest cli method headers nr (some "")
      = .ok { reqB with header := hdel reqB.header "User-Agent" } ∧
    hgetValues (hdel reqB.header "User-Agent") "User-Agent" = none ∧
    outgoingRequest cli method headers nr (some X)
      = .ok { reqB with header := hset reqB.header "User-Agent" X } ∧
    hget (hset reqB.header "User-Agent" X) "User-Agent" = X ∧
    outgoingRequest cli method headers nr none = .ok reqB := by
  have hcanon : canonicalKey "User-Agent" = "User-Agent" := by decide
  have hlen : (X.length == 0) = false := length_beq_zero_eq_false X hX
  refine ⟨?_, ?_, ?_, ?_, ?_⟩
  · simp [outgoingRequest, hB, applyUserAgentOverride]
  · show lookupEntry (eraseEntry reqB.header (canonicalKey "User-Agent")) "User-Agent" = none
    rw [hcanon]
    exact lookupEntry_eraseEntry_self _ _ hnd
  · simp [outgoingRequest, hB, applyUserAgentOverride, hlen]
  · show hget (setEntry reqB.header (canonicalKey "User-Agent") [X]) "User-Agent" = X
    rw [hget, hcanon, lookupEntry_setEntry_self]
  · simp [outgoingRequest, hB, applyUserAgentOverride]

/-- Witness for C9 on a concrete built request carrying a default
`User-Agent`. -/
theorem user_agent_override_behavior_witness :
    outgoingRequest
        { scheme := "http", addr := "1.2.3.4:2375", version := "1.22",
          customHTTPHeaders := [("User-Agent", "engine-api-client/1.0")] }
        "GET" none (.ok exReq) (some "")
      = .ok { url := { scheme := "http", host := "1.2.3.4:2375", rest := "/v1.22/info" },
              header := hdel [("User-Agent", ["engine-api-client/1.0"])] "User-Agent" } ∧
    hgetValues (hdel [("User-Agent", ["engine-api-client/1.0"])] "User-Agent")
      "User-Agent" = none ∧
    outgoingRequest
        { scheme := "http", addr := "1.2.3.4:2375", version := "1.22",
          customHTTPHeaders := [("User-Agent", "engine-api-client/1.0")] }
        "GET" none (.ok exReq) (some "custom-agent/2.0")
      = .ok { url := { scheme := "http", host := "1.2.3.4:2375", rest := "/v1.22/info" },
              header := hset [("User-Agent", ["engine-api-client/1.0"])] "User-Agent"
                "custom-agent/2.0" } ∧
    hget (hset [("User-Agent", ["engine-api-client/1.0"])] "User-Agent" "custom-agent/2.0")
      "User-Agent" = "custom-agent/2.0" ∧
    outgoingRequest
        { scheme := "http", addr := "1.2.3.4:2375", version := "1.22",
          customHTTPHeaders := [("User-Agent", "engine-api-client/1.0")] }
        "GET" none (.ok exReq) none
      = .ok { url := { scheme := "http", host := "1.2.3.4:2375", rest := "/v1.22/info" },
              header := [("User-Agent", ["engine-api-client/1.0"])] } := by
  exact user_agent_override_behavior
    { scheme := "http", addr := "1.2.3.4:2375", version := "1.22",
      customHTTPHeaders := [("User-Agent", "engine-api-client/1.0")] }
    "GET" none (.ok exReq) "custom-agent/2.0"
    { url := { scheme := "http", host := "1.2.3.4:2375", rest := "/v1.22/info" },
      header := [("User-Agent", ["engine-api-client/1.0"])] }
    (by rfl) (by simp) (by decide)
